import Mathlib

/-!
Verification of the status-poller logic exercised by
`third_party/WebKit/Tools/Scripts/webkitpy/common/net/git_cl_unittest.py`.
The poller wraps an external review tool, parses its output, and drives
bounded polling loops.  The implementation module itself (`git_cl.py`) is
not part of the source tree, so every operation below is modelled from the
specification, with observable behaviour pinned by the unit tests.
-/

namespace GitCL

instance {ε α : Type} [DecidableEq ε] [DecidableEq α] : DecidableEq (Except ε α) := fun a b =>
  match a, b with
  | .ok x, .ok y => if h : x = y then .isTrue (by rw [h]) else .isFalse (by simp [h])
  | .error x, .error y => if h : x = y then .isTrue (by rw [h]) else .isFalse (by simp [h])
  | .ok _, .error _ => .isFalse (by simp)
  | .error _, .ok _ => .isFalse (by simp)

/-- Strict lexicographic order on character lists, comparing code points;
this is the byte-wise string order of the original dynamic language. -/
def lexLt : List Char → List Char → Bool
  | [], [] => false
  | [], _ :: _ => true
  | _ :: _, [] => false
  | c :: cs, d :: ds =>
      if c.toNat < d.toNat then true
      else if d.toNat < c.toNat then false
      else lexLt cs ds

/-- Reflexive lexicographic order on character lists. -/
def lexLe (cs ds : List Char) : Bool := lexLt cs ds || cs == ds

/-- The string order used to canonicalize builder collections before
triggering: byte-wise comparison of the underlying characters. -/
def strLe (a b : String) : Prop := lexLe a.data b.data = true

instance : DecidableRel strLe := fun _ _ => instDecidableEqBool _ _

/-- Modelled from the spec: a build identifier attached to a `Build` record
(missing module `git_cl.py` / `buildbot.py`).  It is either absent (the job
is only scheduled), a numeric legacy build number, or an opaque swarming
task-id string.  In the original dynamic language these are `None`, `int`
and `str`; comparisons place `None` below every number and every number
below every string. -/
inductive BuildId where
  | noneId : BuildId
  | num : Nat → BuildId
  | task : String → BuildId
  deriving DecidableEq, Repr

/-- Modelled from the spec: strict comparison on build identifiers used by
`filter_latest`: `None` is least, numeric ids are ordered numerically and
precede task-id strings, task ids are ordered lexicographically. -/
def BuildId.lt : BuildId → BuildId → Bool
  | .noneId, .noneId => false
  | .noneId, _ => true
  | .num _, .noneId => false
  | .num a, .num b => a < b
  | .num _, .task _ => true
  | .task _, .noneId => false
  | .task _, .num _ => false
  | .task s, .task t => lexLt s.data t.data

/-- Modelled from the spec: `Build` identifies a single execution of a named
builder (missing module `buildbot.py`): a builder name plus an optional
build id. -/
structure Build where
  builder_name : String
  build_id : BuildId
  deriving DecidableEq, Repr

/-- Modelled from the spec: `TryJobStatus` is the result snapshot for one
build (missing module `git_cl.py`): a status string (SCHEDULED, STARTED or
COMPLETED) and an optional result string (meaningful when COMPLETED). -/
structure TryJobStatus where
  status : String
  result : Option String
  deriving DecidableEq, Repr

/-- A mapping from `Build` to `TryJobStatus`, modelled as an association
list (the dynamic original uses a dict keyed by `Build`). -/
abbrev TryResults := List (Build × TryJobStatus)

/-- Modelled from the spec: `CLStatus` is the combined snapshot returned by
the try-job polling loop (missing module `git_cl.py`): the review status
string together with the latest try-job results. -/
structure CLStatus where
  status : String
  try_job_results : TryResults
  deriving DecidableEq, Repr

/-- Modelled from the spec: one raw record returned by the result-query
data source (`fetch_raw_try_job_results` of the missing `git_cl.py`):
builder name, status, nullable result, nullable url. -/
structure RawResult where
  builder_name : String
  status : String
  result : Option String
  url : Option String
  deriving DecidableEq, Repr

/-- Modelled from the spec: the failure modes of the poller (missing module
`git_cl.py`): a `ParseError` when the issue-number line is absent, and an
assertion-style `MalformedResultError` carrying its message when a result
url matches neither accepted pattern. -/
inductive GitClError where
  | parseError : GitClError
  | malformedResult : String → GitClError
  deriving DecidableEq, Repr

/-- Modelled from the spec: the exclusion list of subcommands that do not
accept the auth flag (missing module `git_cl.py`); the spec states it
contains at least "issue". -/
def auth_excluded_commands : List String := ["issue"]

/-- Modelled from the spec: the argument vector built by `run` (missing
module `git_cl.py`): the fixed subcommand name `git cl` is prefixed to the
caller args; when an auth-token path is configured and the first argument
is not excluded, `--auth-refresh-token-json` and the token path are
appended at the end. -/
def run_args (auth : Option String) (args : List String) : List String :=
  let command := ["git", "cl"] ++ args
  match auth with
  | none => command
  | some token =>
      if (args.headD "") ∈ auth_excluded_commands then command
      else command ++ ["--auth-refresh-token-json", token]

/-- Splits a character list on a separator character; the separators are
dropped and empty fields are kept, as in the split of the original
dynamic language. -/
def splitChar (sep : Char) : List Char → List (List Char)
  | [] => [[]]
  | c :: cs =>
      if c = sep then [] :: splitChar sep cs
      else
        match splitChar sep cs with
        | w :: ws => (c :: w) :: ws
        | [] => [[c]]

/-- Modelled from the spec: recognizer for one output line of the `issue`
subcommand (missing module `git_cl.py`).  A line matches the pattern
`Issue number: <token> (...)`; the returned value is `<token>` (a nonempty
word, possibly the literal text "None"). -/
def parseIssueLine (l : List Char) : Option String :=
  if ("Issue number: ").data.isPrefixOf l then
    match splitChar ' ' (l.drop 14) with
    | tok :: paren :: _ =>
        if tok ≠ [] ∧ paren.head? = some '(' ∧ paren.getLast? = some ')' then
          some (String.mk tok)
        else
          none
    | _ => none
  else none

/-- Modelled from the spec: `get_issue_number` (missing module `git_cl.py`)
parses the output of the `issue` subcommand for a line matching
`Issue number: <token> (...)` and returns `<token>` as a string; it fails
with `ParseError` when no line matches. -/
def get_issue_number (output : String) : Except GitClError String :=
  match (splitChar '\n' output.data).findSome? parseIssueLine with
  | some tok => .ok tok
  | none => .error .parseError

/-- Modelled from the spec: the static builder-to-master lookup table
(missing module `git_cl.py`); the tests pin one non-default entry,
`android_blink_rel` on `tryserver.chromium.android`. -/
def builder_master_table : List (String × String) :=
  [("android_blink_rel", "tryserver.chromium.android")]

/-- Modelled from the spec: the designated default master used for builders
absent from the lookup table (missing module `git_cl.py`). -/
def default_master : String := "tryserver.blink"

/-- Modelled from the spec: master owning a given builder, defaulting
unrecognized names to the default master. -/
def master_for_builder (b : String) : String :=
  match builder_master_table.find? (fun p => p.1 == b) with
  | some p => p.2
  | none => default_master

/-- Keeps the first occurrence of each element, preserving first-encounter
order; used to enumerate the distinct masters of a builder list. -/
def dedupFirst (l : List String) : List String :=
  l.foldl (fun acc x => if x ∈ acc then acc else acc ++ [x]) []

/-- Modelled from the spec: `trigger_try_jobs` (missing module `git_cl.py`)
accepts any collection of builder names, converts it to a sorted sequence
(making the result independent of how the collection was iterated),
partitions the builders by master, and issues one `try` invocation per
distinct master naming the master via `-m` and its builders via repeated
`-b` flags, non-default masters first in order of first encounter and the
default master last.  The returned value is the list of full argument
vectors passed to the external process, in order. -/
def trigger_try_jobs (auth : Option String) (builders : List String) : List (List String) :=
  let sorted := builders.insertionSort strLe
  let ms := dedupFirst (sorted.map master_for_builder)
  let masters :=
    ms.filter (· ≠ default_master) ++
      (if default_master ∈ ms then [default_master] else [])
  masters.map (fun m =>
    run_args auth
      (["try", "-m", m] ++
        (sorted.filter (fun b => master_for_builder b == m)).flatMap
          (fun b => ["-b", b])))

/-- Modelled from the spec: `all_success` (missing module `git_cl.py`) is
true iff every entry has status COMPLETED and result SUCCESS; vacuously
true on the empty mapping. -/
def all_success (r : TryResults) : Bool :=
  r.all (fun e => e.2.status == "COMPLETED" && e.2.result == some "SUCCESS")

/-- Modelled from the spec: the terminal test used by the try-job polling
loop (missing module `git_cl.py`): every known try job has reached a
COMPLETED status. -/
def all_finished (r : TryResults) : Bool :=
  r.all (fun e => e.2.status == "COMPLETED")

/-- Modelled from the spec: `some_failed` (missing module `git_cl.py`) is
true iff some entry has status COMPLETED and result FAILURE. -/
def some_failed (r : TryResults) : Bool :=
  r.any (fun e => e.2.status == "COMPLETED" && e.2.result == some "FAILURE")

/-- Numeric value of a list of decimal digit characters. -/
def digitsVal (ds : List Char) : Nat :=
  ds.foldl (fun a c => a * 10 + (c.toNat - 48)) 0

/-- Modelled from the spec: recognizer for the legacy numeric build-id url
pattern of the missing `git_cl.py` (a url whose final path segment is a
nonempty run of decimal digits, such as `.../builds/100` or
`.../some-builder/100`), returning the digits parsed as an integer. -/
def parse_build_number (cs : List Char) : Option Nat :=
  let r := cs.reverse
  let ds := r.takeWhile Char.isDigit
  if ds.isEmpty then none
  else
    match r.drop ds.length with
    | '/' :: _ => some (digitsVal ds.reverse)
    | _ => none

/-- A lowercase hexadecimal digit, as accepted in a swarming task id. -/
def isHexDigit (c : Char) : Bool :=
  c.isDigit || (('a' ≤ c) && (c ≤ 'f'))

/-- Modelled from the spec: recognizer for the task-id url pattern of the
missing `git_cl.py`: a segment `/task/` followed by a nonempty hex token
that runs to the end of the url or to a trailing query string (which is
stripped). -/
def parse_task_id : List Char → Option (List Char)
  | [] => none
  | c :: rest =>
      let attempt : Option (List Char) :=
        if ['/', 't', 'a', 's', 'k', '/'].isPrefixOf (c :: rest) then
          let after := rest.drop 5
          let tok := after.takeWhile isHexDigit
          if tok.isEmpty then none
          else
            match after.drop tok.length with
            | [] => some tok
            | '?' :: _ => some tok
            | _ => none
        else none
      match attempt with
      | some tok => some tok
      | none => parse_task_id rest

/-- Modelled from the spec: build-id extraction from a record's url
(missing module `git_cl.py`).  A falsy url gives no id; a url whose final
path segment is a run of digits gives a numeric id; a url containing
`/task/<hex-token>` (optionally followed by a query string, stripped)
gives the token as a string id; any other non-empty url fails with the
assertion-style `MalformedResultError`. -/
def build_id_of_url : Option String → Except GitClError BuildId
  | none => .ok .noneId
  | some u =>
      if u.isEmpty then .ok .noneId
      else
        match parse_build_number u.data with
        | some n => .ok (.num n)
        | none =>
            match parse_task_id u.data with
            | some tok => .ok (.task (String.mk tok))
            | none => .error (.malformedResult (u ++ " did not match expected format"))

/-- Modelled from the spec: `try_job_results` (missing module `git_cl.py`).
Each raw record becomes one entry `Build ↦ TryJobStatus`, the build id
being extracted from the record's url; when a builder-name filter is given,
records for builders not in the filter are silently dropped before any url
parsing, so malformed urls of uninteresting builders raise nothing. -/
def try_job_results (builder_names : Option (List String)) :
    List RawResult → Except GitClError TryResults
  | [] => .ok []
  | r :: rest =>
      let keep :=
        match builder_names with
        | none => true
        | some bns => r.builder_name ∈ bns
      if keep then
        match build_id_of_url r.url with
        | .error e => .error e
        | .ok bid =>
            match try_job_results builder_names rest with
            | .error e => .error e
            | .ok m => .ok ((⟨⟨r.builder_name, bid⟩, ⟨r.status, r.result⟩⟩ : Build × TryJobStatus) :: m)
      else try_job_results builder_names rest

/-- Modelled from the spec: one step of `filter_latest` (missing module
`git_cl.py`): fold an entry into the per-builder latest table, inserting
the builder if absent and replacing its entry when the new build id is
strictly greater. -/
def updateLatest (acc : TryResults) (e : Build × TryJobStatus) : TryResults :=
  match acc.find? (fun p => p.1.builder_name == e.1.builder_name) with
  | none => acc ++ [e]
  | some p =>
      if p.1.build_id.lt e.1.build_id then
        acc.map (fun q => if q.1.builder_name == e.1.builder_name then e else q)
      else acc

/-- Modelled from the spec: the non-`None` core of `filter_latest` (missing
module `git_cl.py`): groups the entries by builder name and keeps, per
builder, the entry with the greatest build id (`None` least, numeric ids
below task-id strings). -/
def filter_latest_core (m : TryResults) : TryResults :=
  m.foldl updateLatest []

/-- Modelled from the spec: `filter_latest` (missing module `git_cl.py`):
propagates `None` unchanged and otherwise reduces a mapping to at most one
entry per builder, keeping the greatest build id. -/
def filter_latest : Option TryResults → Option TryResults
  | none => none
  | some m => some (filter_latest_core m)

/-- Modelled from the spec: `latest_try_jobs` (missing module `git_cl.py`):
parse the raw records, then collapse to the latest entry per builder. -/
def latest_try_jobs (builder_names : Option (List String))
    (raw : List RawResult) : Except GitClError TryResults :=
  match try_job_results builder_names raw with
  | .error e => .error e
  | .ok m => .ok (filter_latest_core m)

/-!  The polling loops.  The external collaborators — the per-poll raw
try-job records and the review-status query output — are injected as
functions of the poll index. -/

/-- Modelled from the spec: the injectable data sources read by the polling
loops of the missing `git_cl.py`: the raw records returned by
`fetch_raw_try_job_results` on the n-th poll, and the (stripped) output of
the review status query on the n-th poll. -/
structure PollEnv where
  rawResults : Nat → List RawResult
  clStatus : Nat → String

/-- Outcome of a polling loop: the returned value (`none` models the null
timeout sentinel), the lines printed to standard output in order, and the
number of times the loop body ran. -/
structure WaitOutcome (α : Type) where
  result : Option α
  printed : List String
  iterations : Nat
  deriving DecidableEq, Repr

/-- Progress line of the try-job polling loop. -/
def waiting_line (n : Nat) : String :=
  "Waiting for try jobs. " ++ toString n ++ " seconds passed."

/-- Modelled from the spec: the body of `wait_for_try_jobs` (missing module
`git_cl.py`).  While elapsed time is below the timeout the loop sleeps one
poll interval, fetches and parses the latest try-job results, reads the
review status, exits returning a `CLStatus` snapshot when the status is
the terminal "closed" value or when the results are nonempty and all
COMPLETED, and otherwise prints the cumulative elapsed seconds and sleeps
a second poll interval.  The exact progress lines of the spec (elapsed
600, 1800, ..., 6600 for poll interval 600 and timeout 7200) pin the two
sleeps per loop pass.  Fuel is structural; the caller supplies more fuel
than the time budget can consume. -/
def waitLoop (env : PollEnv) (poll timeout : Nat) :
    Nat → Nat → Nat → List String → Nat → Except GitClError (WaitOutcome CLStatus)
  | 0, _, _, acc, its =>
      .ok ⟨none, acc ++ ["Timed out waiting for try jobs."], its⟩
  | fuel + 1, t, i, acc, its =>
      if t < timeout then
        let t1 := t + poll
        match latest_try_jobs none (env.rawResults i) with
        | .error e => .error e
        | .ok latest =>
            let status := env.clStatus i
            if status = "closed" then
              .ok ⟨some ⟨status, latest⟩, acc, its + 1⟩
            else if (!latest.isEmpty) && all_finished latest then
              .ok ⟨some ⟨status, latest⟩, acc, its + 1⟩
            else
              waitLoop env poll timeout fuel (t1 + poll) (i + 1)
                (acc ++ [waiting_line t1]) (its + 1)
      else .ok ⟨none, acc ++ ["Timed out waiting for try jobs."], its⟩

/-- Modelled from the spec: `wait_for_try_jobs` (missing module
`git_cl.py`): print the timeout announcement, then run the polling loop;
on timeout print the timed-out line and return the null sentinel, on a
terminal condition return the `CLStatus` snapshot. -/
def wait_for_try_jobs (env : PollEnv) (poll timeout : Nat) :
    Except GitClError (WaitOutcome CLStatus) :=
  waitLoop env poll timeout (timeout + 1) 0 0
    ["Waiting for try jobs, timeout: " ++ toString timeout ++ " seconds."] 0

/-- Progress line of the closed-status polling loop. -/
def closed_waiting_line (n : Nat) : String :=
  "Waiting for closed status. " ++ toString n ++ " seconds passed."

/-- Modelled from the spec: the body of `wait_for_closed_status` (missing
module `git_cl.py`): same loop shape as `waitLoop`, polling only the
review status until it is the recognized closed state; prints "CL is
closed." and returns the status string on success. -/
def closedLoop (env : PollEnv) (poll timeout : Nat) :
    Nat → Nat → Nat → List String → Nat → WaitOutcome String
  | 0, _, _, acc, its =>
      ⟨none, acc ++ ["Timed out waiting for closed status."], its⟩
  | fuel + 1, t, i, acc, its =>
      if t < timeout then
        let t1 := t + poll
        let status := env.clStatus i
        if status = "closed" then
          ⟨some status, acc ++ ["CL is closed."], its + 1⟩
        else
          closedLoop env poll timeout fuel (t1 + poll) (i + 1)
            (acc ++ [closed_waiting_line t1]) (its + 1)
      else ⟨none, acc ++ ["Timed out waiting for closed status."], its⟩

/-- Modelled from the spec: `wait_for_closed_status` (missing module
`git_cl.py`): print the timeout announcement, then poll the review status;
on the recognized closed state print "CL is closed." and return the status
string, on timeout print the timed-out line and return the null
sentinel. -/
def wait_for_closed_status (env : PollEnv) (poll timeout : Nat) :
    WaitOutcome String :=
  closedLoop env poll timeout (timeout + 1) 0 0
    ["Waiting for closed status, timeout: " ++ toString timeout ++ " seconds."] 0

/-! Order lemmas for the byte-wise string comparison. -/

theorem lexLt_irrefl : ∀ (a : List Char), lexLt a a = false := by
  intro a
  induction a with
  | nil => rfl
  | cons x xs ih => simp [lexLt, ih]

theorem lexLt_trans : ∀ (a b c : List Char),
    lexLt a b = true → lexLt b c = true → lexLt a c = true := by
  intro a
  induction a with
  | nil =>
      intro b c h1 h2
      cases b with
      | nil => simp [lexLt] at h1
      | cons y ys =>
          cases c with
          | nil => simp [lexLt] at h2
          | cons z zs => simp [lexLt]
  | cons x xs ih =>
      intro b c h1 h2
      cases b with
      | nil => simp [lexLt] at h1
      | cons y ys =>
          cases c with
          | nil => simp [lexLt] at h2
          | cons z zs =>
              simp only [lexLt] at h1 h2 ⊢
              by_cases hxy : x.toNat < y.toNat
              · by_cases hyz : y.toNat < z.toNat
                · rw [if_pos (by omega)]
                · rw [if_neg hyz] at h2
                  by_cases hzy : z.toNat < y.toNat
                  · rw [if_pos hzy] at h2
                    exact absurd h2 (by simp)
                  · rw [if_pos (by omega)]
              · rw [if_neg hxy] at h1
                by_cases hyx : y.toNat < x.toNat
                · rw [if_pos hyx] at h1
                  exact absurd h1 (by simp)
                · rw [if_neg hyx] at h1
                  by_cases hyz : y.toNat < z.toNat
                  · rw [if_pos (by omega)]
                  · rw [if_neg hyz] at h2
                    by_cases hzy : z.toNat < y.toNat
                    · rw [if_pos hzy] at h2
                      exact absurd h2 (by simp)
                    · rw [if_neg hzy] at h2
                      rw [if_neg (by omega), if_neg (by omega)]
                      exact ih ys zs h1 h2

theorem lexLt_total_of_ne : ∀ (a b : List Char),
    a ≠ b → lexLt a b = true ∨ lexLt b a = true := by
  intro a
  induction a with
  | nil =>
      intro b hne
      cases b with
      | nil => exact absurd rfl hne
      | cons y ys => left; simp [lexLt]
  | cons x xs ih =>
      intro b hne
      cases b with
      | nil => right; simp [lexLt]
      | cons y ys =>
          by_cases hxy : x.toNat < y.toNat
          · left; simp [lexLt, hxy]
          · by_cases hyx : y.toNat < x.toNat
            · right; simp [lexLt, hyx]
            · have hchar : x = y := by
                apply Char.ext
                apply UInt32.ext
                simp only [Char.toNat] at hxy hyx
                omega
              subst hchar
              have htail : xs ≠ ys := by
                intro h
                exact hne (by rw [h])
              rcases ih ys htail with h | h
              · left; simp [lexLt, h]
              · right; simp [lexLt, h]

theorem lexLt_asymm (a b : List Char) (h1 : lexLt a b = true) :
    lexLt b a = false := by
  by_contra hcon
  have h2 : lexLt b a = true := by
    cases hlt : lexLt b a
    · exact absurd hlt hcon
    · rfl
  have := lexLt_trans a b a h1 h2
  rw [lexLt_irrefl] at this
  exact Bool.false_ne_true this

theorem strLe_total : ∀ (a b : String), strLe a b ∨ strLe b a := by
  intro a b
  by_cases h : a.data = b.data
  · left; simp [strLe, lexLe, h]
  · rcases lexLt_total_of_ne a.data b.data h with hlt | hlt
    · left; simp [strLe, lexLe, hlt]
    · right; simp [strLe, lexLe, hlt]

theorem strLe_trans : ∀ (a b c : String), strLe a b → strLe b c → strLe a c := by
  intro a b c h1 h2
  simp only [strLe, lexLe, Bool.or_eq_true, beq_iff_eq] at h1 h2 ⊢
  rcases h1 with h1 | h1 <;> rcases h2 with h2 | h2
  · exact Or.inl (lexLt_trans _ _ _ h1 h2)
  · rw [← h2]; exact Or.inl h1
  · rw [h1]; exact Or.inl h2
  · rw [h1, h2]; exact Or.inr rfl

theorem strLe_antisymm : ∀ (a b : String), strLe a b → strLe b a → a = b := by
  intro a b h1 h2
  simp only [strLe, lexLe, Bool.or_eq_true, beq_iff_eq] at h1 h2
  have hdata : a.data = b.data := by
    rcases h1 with h1 | h1
    · rcases h2 with h2 | h2
      · have := lexLt_asymm _ _ h1
        rw [this] at h2
        exact absurd h2 Bool.false_ne_true
      · exact h2.symm
    · exact h1
  cases a; cases b; simp_all

theorem takeWhile_append_all (p : Char → Bool) : ∀ (l₁ l₂ : List Char),
    (∀ c ∈ l₁, p c = true) → (l₁ ++ l₂).takeWhile p = l₁ ++ l₂.takeWhile p := by
  intro l₁
  induction l₁ with
  | nil => intro l₂ _; simp
  | cons x xs ih =>
      intro l₂ h
      have hx : p x = true := h x (by simp)
      simp only [List.cons_append, List.takeWhile_cons, hx, if_true]
      rw [ih l₂ (fun c hc => h c (by simp [hc]))]

theorem parse_build_number_digits (pre ds : List Char) (hne : ds ≠ [])
    (hdig : ∀ c ∈ ds, c.isDigit = true) :
    parse_build_number (pre ++ '/' :: ds) = some (digitsVal ds) := by
  have hrev : (pre ++ '/' :: ds).reverse = ds.reverse ++ '/' :: pre.reverse := by
    simp
  have htake : (ds.reverse ++ '/' :: pre.reverse).takeWhile Char.isDigit = ds.reverse := by
    rw [takeWhile_append_all Char.isDigit ds.reverse ('/' :: pre.reverse)
          (fun c hc => hdig c (List.mem_reverse.mp hc))]
    simp [List.takeWhile_cons]
  have hnerev : ds.reverse ≠ [] := by
    intro h
    exact hne (by simpa using congrArg List.reverse h)
  simp only [parse_build_number, hrev, htake]
  rw [if_neg (by simpa [List.isEmpty_iff] using hnerev)]
  rw [List.drop_left ds.reverse ('/' :: pre.reverse)]
  simp

theorem parse_task_id_token (tok q : List Char) (hne : tok ≠ [])
    (hhex : ∀ c ∈ tok, isHexDigit c = true) :
    parse_task_id (['/', 't', 'a', 's', 'k', '/'] ++ (tok ++ '?' :: q)) = some tok := by
  have htake : (tok ++ '?' :: q).takeWhile isHexDigit = tok := by
    rw [takeWhile_append_all isHexDigit tok ('?' :: q) hhex]
    simp [List.takeWhile_cons, isHexDigit]
  simp only [List.cons_append, List.nil_append]
  rw [parse_task_id]
  simp only [List.isPrefixOf, beq_self_eq_true, Bool.true_and, if_true,
    List.drop_succ_cons, List.drop_zero, htake]
  rw [if_neg (by simpa [List.isEmpty_iff] using hne)]
  rw [List.drop_left tok ('?' :: q)]
  rfl

theorem waitLoop_exit_timeout (env : PollEnv) (poll timeout : Nat) :
    ∀ (fuel t i : Nat) (acc : List String) (its : Nat), ¬ t < timeout →
    waitLoop env poll timeout fuel t i acc its =
      .ok ⟨none, acc ++ ["Timed out waiting for try jobs."], its⟩ := by
  intro fuel t i acc its ht
  cases fuel with
  | zero => rfl
  | succ f =>
      simp only [waitLoop]
      rw [if_neg ht]

theorem waitLoop_nonterminal_step (env : PollEnv) (poll timeout fuel t i : Nat)
    (acc : List String) (its : Nat) (res : TryResults)
    (ht : t < timeout)
    (hres : latest_try_jobs none (env.rawResults i) = .ok res)
    (hclosed : env.clStatus i ≠ "closed")
    (hnf : ((!res.isEmpty) && all_finished res) = false) :
    waitLoop env poll timeout (fuel + 1) t i acc its =
      waitLoop env poll timeout fuel (t + poll + poll) (i + 1)
        (acc ++ [waiting_line (t + poll)]) (its + 1) := by
  simp only [waitLoop]
  rw [if_pos ht, hres]
  simp only []
  rw [if_neg hclosed, hnf]
  simp

theorem waitLoop_exit_terminal (env : PollEnv) (poll timeout fuel t i : Nat)
    (acc : List String) (its : Nat) (res : TryResults)
    (ht : t < timeout)
    (hres : latest_try_jobs none (env.rawResults i) = .ok res)
    (hterm : env.clStatus i = "closed" ∨ ((!res.isEmpty) && all_finished res) = true) :
    waitLoop env poll timeout (fuel + 1) t i acc its =
      .ok ⟨some ⟨env.clStatus i, res⟩, acc, its + 1⟩ := by
  simp only [waitLoop]
  rw [if_pos ht, hres]
  simp only []
  by_cases hcl : env.clStatus i = "closed"
  · rw [if_pos hcl]
  · rw [if_neg hcl]
    rcases hterm with h | h
    · exact absurd h hcl
    · rw [h]
      simp

theorem closedLoop_exit_timeout (env : PollEnv) (poll timeout : Nat) :
    ∀ (fuel t i : Nat) (acc : List String) (its : Nat), ¬ t < timeout →
    closedLoop env poll timeout fuel t i acc its =
      ⟨none, acc ++ ["Timed out waiting for closed status."], its⟩ := by
  intro fuel t i acc its ht
  cases fuel with
  | zero => rfl
  | succ f =>
      simp only [closedLoop]
      rw [if_neg ht]

theorem closedLoop_step (env : PollEnv) (poll timeout fuel t i : Nat)
    (acc : List String) (its : Nat)
    (ht : t < timeout) (h : env.clStatus i ≠ "closed") :
    closedLoop env poll timeout (fuel + 1) t i acc its =
      closedLoop env poll timeout fuel (t + poll + poll) (i + 1)
        (acc ++ [closed_waiting_line (t + poll)]) (its + 1) := by
  simp only [closedLoop]
  rw [if_pos ht, if_neg h]

theorem closedLoop_exit_closed (env : PollEnv) (poll timeout fuel t i : Nat)
    (acc : List String) (its : Nat)
    (ht : t < timeout) (h : env.clStatus i = "closed") :
    closedLoop env poll timeout (fuel + 1) t i acc its =
      ⟨some (env.clStatus i), acc ++ ["CL is closed."], its + 1⟩ := by
  simp only [closedLoop]
  rw [if_pos ht, if_pos h]

theorem BuildId.lt_trans (a b c : BuildId) (h1 : BuildId.lt a b = true)
    (h2 : BuildId.lt b c = true) : BuildId.lt a c = true := by
  cases a <;> cases b <;> cases c <;> simp_all [BuildId.lt] <;>
    first
      | omega
      | exact lexLt_trans _ _ _ h1 h2

theorem BuildId.lt_total_of_ne (a b : BuildId) (h : a ≠ b) :
    BuildId.lt a b = true ∨ BuildId.lt b a = true := by
  cases a <;> cases b <;> simp_all [BuildId.lt]
  rename_i s t
  apply lexLt_total_of_ne
  intro hd
  exact h (congrArg String.mk hd)

theorem Build.eq_iff (a b : Build) :
    a = b ↔ a.builder_name = b.builder_name ∧ a.build_id = b.build_id := by
  cases a; cases b; simp

theorem filter_latest_core_spec (m : TryResults) :
    (m.map Prod.fst).Nodup →
    (∀ e ∈ filter_latest_core m, e ∈ m) ∧
    (∀ e ∈ filter_latest_core m, ∀ f ∈ filter_latest_core m,
      e.1.builder_name = f.1.builder_name → e = f) ∧
    (∀ e ∈ filter_latest_core m, ∀ f ∈ m,
      f.1.builder_name = e.1.builder_name →
        f = e ∨ f.1.build_id.lt e.1.build_id = true) ∧
    (∀ f ∈ m, ∃ e ∈ filter_latest_core m, e.1.builder_name = f.1.builder_name) := by
  induction m using List.reverseRecOn with
  | nil =>
      intro _
      simp [filter_latest_core]
  | append_singleton l x ih =>
      intro hnd
      rw [List.map_append] at hnd
      have hnd2 : (l.map Prod.fst).Nodup := hnd.of_append_left
      have hx : x.1 ∉ l.map Prod.fst := by
        intro hmem
        exact (List.disjoint_of_nodup_append hnd) hmem (by simp)
      obtain ⟨iha, ihb, ihc, ihd⟩ := ih hnd2
      have hcore : filter_latest_core (l ++ [x]) =
          updateLatest (filter_latest_core l) x := by
        simp [filter_latest_core, List.foldl_append]
      rw [hcore]
      rcases hfind : (filter_latest_core l).find?
          (fun q => q.1.builder_name == x.1.builder_name) with _ | p
      · -- no entry for the new builder yet: it is appended
        have hupd : updateLatest (filter_latest_core l) x =
            filter_latest_core l ++ [x] := by
          simp only [updateLatest, hfind]
        have hnoneN : ∀ q ∈ filter_latest_core l,
            q.1.builder_name ≠ x.1.builder_name := by
          intro q hq
          simpa using List.find?_eq_none.mp hfind q hq
        rw [hupd]
        refine ⟨?_, ?_, ?_, ?_⟩
        · intro e he
          rcases List.mem_append.mp he with he2 | he2
          · exact List.mem_append.mpr (Or.inl (iha e he2))
          · simp only [List.mem_singleton] at he2
            rw [he2]
            exact List.mem_append.mpr (Or.inr (by simp))
        · intro e he f hf hname
          rcases List.mem_append.mp he with he2 | he2 <;>
            rcases List.mem_append.mp hf with hf2 | hf2
          · exact ihb e he2 f hf2 hname
          · simp only [List.mem_singleton] at hf2
            rw [hf2] at hname
            exact absurd hname (hnoneN e he2)
          · simp only [List.mem_singleton] at he2
            rw [he2] at hname
            exact absurd hname.symm (hnoneN f hf2)
          · simp only [List.mem_singleton] at he2 hf2
            rw [he2, hf2]
        · intro e he f hf hname
          rcases List.mem_append.mp he with he2 | he2
          · rcases List.mem_append.mp hf with hf2 | hf2
            · exact ihc e he2 f hf2 hname
            · simp only [List.mem_singleton] at hf2
              rw [hf2] at hname
              exact absurd hname.symm (hnoneN e he2)
          · simp only [List.mem_singleton] at he2
            rcases List.mem_append.mp hf with hf2 | hf2
            · obtain ⟨g, hg, hgname⟩ := ihd f hf2
              rw [he2] at hname
              exact absurd (hgname.trans hname) (hnoneN g hg)
            · simp only [List.mem_singleton] at hf2
              exact Or.inl (hf2.trans he2.symm)
        · intro f hf
          rcases List.mem_append.mp hf with hf2 | hf2
          · obtain ⟨e, he, hename⟩ := ihd f hf2
            exact ⟨e, List.mem_append.mpr (Or.inl he), hename⟩
          · simp only [List.mem_singleton] at hf2
            refine ⟨x, List.mem_append.mpr (Or.inr (by simp)), ?_⟩
            rw [hf2]
      · -- the new builder already has an entry p
        have hp : p ∈ filter_latest_core l := List.mem_of_find?_eq_some hfind
        have hpb := List.find?_some hfind
        have hpbN : p.1.builder_name = x.1.builder_name := by simpa using hpb
        have huniq : ∀ q ∈ filter_latest_core l,
            q.1.builder_name = x.1.builder_name → q = p := by
          intro q hq hqb
          exact ihb q hq p hp (hqb.trans hpbN.symm)
        by_cases hlt : p.1.build_id.lt x.1.build_id = true
        · -- the new build supersedes p
          have hupd : updateLatest (filter_latest_core l) x =
              (filter_latest_core l).map
                (fun q => if q.1.builder_name == x.1.builder_name then x else q) := by
            simp only [updateLatest, hfind]
            rw [if_pos hlt]
          have hgp : (if p.1.builder_name == x.1.builder_name then x else p) = x :=
            if_pos hpb
          have hgq : ∀ q ∈ filter_latest_core l, q ≠ p →
              (if q.1.builder_name == x.1.builder_name then x else q) = q := by
            intro q hq hqp
            have hqb : q.1.builder_name ≠ x.1.builder_name := by
              intro hqb
              exact hqp (huniq q hq hqb)
            simp [hqb]
          rw [hupd]
          refine ⟨?_, ?_, ?_, ?_⟩
          · intro e he
            obtain ⟨q, hq, hge⟩ := List.mem_map.mp he
            by_cases hqp : q = p
            · have he2 : e = x := by rw [← hge, hqp, hgp]
              rw [he2]
              exact List.mem_append.mpr (Or.inr (by simp))
            · have he2 : e = q := by rw [← hge, hgq q hq hqp]
              rw [he2]
              exact List.mem_append.mpr (Or.inl (iha q hq))
          · intro e he f hf hname
            obtain ⟨q1, hq1, hg1⟩ := List.mem_map.mp he
            obtain ⟨q2, hq2, hg2⟩ := List.mem_map.mp hf
            by_cases h1 : q1 = p <;> by_cases h2 : q2 = p
            · have he2 : e = x := by rw [← hg1, h1, hgp]
              have hf2 : f = x := by rw [← hg2, h2, hgp]
              rw [he2, hf2]
            · have he2 : e = x := by rw [← hg1, h1, hgp]
              have hf2 : f = q2 := by rw [← hg2, hgq q2 hq2 h2]
              rw [he2, hf2] at hname
              exact absurd (huniq q2 hq2 hname.symm) h2
            · have he2 : e = q1 := by rw [← hg1, hgq q1 hq1 h1]
              have hf2 : f = x := by rw [← hg2, h2, hgp]
              rw [he2, hf2] at hname
              exact absurd (huniq q1 hq1 hname) h1
            · have he2 : e = q1 := by rw [← hg1, hgq q1 hq1 h1]
              have hf2 : f = q2 := by rw [← hg2, hgq q2 hq2 h2]
              rw [he2, hf2] at hname ⊢
              exact ihb q1 hq1 q2 hq2 hname
          · intro e he f hf hname
            obtain ⟨q, hq, hge⟩ := List.mem_map.mp he
            by_cases hqp : q = p
            · have he2 : e = x := by rw [← hge, hqp, hgp]
              rw [he2]
              rw [he2] at hname
              rcases List.mem_append.mp hf with hf2 | hf2
              · have hfb : f.1.builder_name = p.1.builder_name := by
                  rw [hname]
                  exact hpbN.symm
                rcases ihc p hp f hf2 hfb with hfp | hfp
                · refine Or.inr ?_
                  rw [hfp]
                  exact hlt
                · exact Or.inr (BuildId.lt_trans _ _ _ hfp hlt)
              · simp only [List.mem_singleton] at hf2
                exact Or.inl hf2
            · have he2 : e = q := by rw [← hge, hgq q hq hqp]
              rw [he2]
              rw [he2] at hname
              rcases List.mem_append.mp hf with hf2 | hf2
              · exact ihc q hq f hf2 hname
              · simp only [List.mem_singleton] at hf2
                rw [hf2] at hname
                exact absurd (huniq q hq hname.symm) hqp
          · intro f hf
            rcases List.mem_append.mp hf with hf2 | hf2
            · obtain ⟨e, he, hename⟩ := ihd f hf2
              by_cases hep : e = p
              · refine ⟨x, List.mem_map.mpr ⟨p, hp, hgp⟩, ?_⟩
                rw [← hpbN, ← hep]
                exact hename
              · exact ⟨e, List.mem_map.mpr ⟨e, he, hgq e he hep⟩, hename⟩
            · simp only [List.mem_singleton] at hf2
              refine ⟨x, List.mem_map.mpr ⟨p, hp, hgp⟩, ?_⟩
              rw [hf2]
        · -- the existing entry p wins
          have hupd : updateLatest (filter_latest_core l) x =
              filter_latest_core l := by
            simp only [updateLatest, hfind]
            rw [if_neg hlt]
          have hpl : p ∈ l := iha p hp
          have hpkey : p.1 ≠ x.1 := by
            intro hk
            exact hx (hk ▸ List.mem_map_of_mem Prod.fst hpl)
          have hpid : p.1.build_id ≠ x.1.build_id := by
            intro hid
            exact hpkey ((Build.eq_iff p.1 x.1).mpr ⟨hpbN, hid⟩)
          have hxp : x.1.build_id.lt p.1.build_id = true := by
            rcases BuildId.lt_total_of_ne p.1.build_id x.1.build_id hpid with h | h
            · exact absurd h hlt
            · exact h
          rw [hupd]
          refine ⟨?_, ?_, ?_, ?_⟩
          · intro e he
            exact List.mem_append.mpr (Or.inl (iha e he))
          · exact ihb
          · intro e he f hf hname
            rcases List.mem_append.mp hf with hf2 | hf2
            · exact ihc e he f hf2 hname
            · simp only [List.mem_singleton] at hf2
              have hep : e = p := by
                apply huniq e he
                rw [← hname, hf2]
              rw [hf2, hep]
              exact Or.inr hxp
          · intro f hf
            rcases List.mem_append.mp hf with hf2 | hf2
            · exact ihd f hf2
            · simp only [List.mem_singleton] at hf2
              refine ⟨p, hp, ?_⟩
              rw [hf2]
              exact hpbN


theorem master_for_builder_default (b : String) (hb : b ≠ "android_blink_rel") :
    master_for_builder b = default_master := by
  unfold master_for_builder builder_master_table
  rw [List.find?_cons_of_neg]
  · rfl
  · simp [Ne.symm hb]

/-! Claim theorems. -/

/-- Claim C5: `filter_latest` is pure and propagates the null input
unchanged, maps the empty mapping to the empty mapping, and on every
mapping (with the dict invariant of distinct `Build` keys) reduces to at
most one entry per builder name — namely an entry of the input that is
greatest for the build-id order, `None` ids least and a concrete id
superseding a scheduled entry — while retaining every builder of the
input. -/
theorem filter_latest_correct :
    filter_latest none = none ∧
    filter_latest (some []) = some [] ∧
    ∀ m : TryResults, (m.map Prod.fst).Nodup →
      filter_latest (some m) = some (filter_latest_core m) ∧
      (∀ e ∈ filter_latest_core m, e ∈ m) ∧
      (∀ e ∈ filter_latest_core m, ∀ f ∈ filter_latest_core m,
        e.1.builder_name = f.1.builder_name → e = f) ∧
      (∀ e ∈ filter_latest_core m, ∀ f ∈ m,
        f.1.builder_name = e.1.builder_name →
          f = e ∨ f.1.build_id.lt e.1.build_id = true) ∧
      (∀ f ∈ m, ∃ e ∈ filter_latest_core m, e.1.builder_name = f.1.builder_name) := by
  refine ⟨rfl, rfl, ?_⟩
  intro m hnd
  obtain ⟨h1, h2, h3, h4⟩ := filter_latest_core_spec m hnd
  exact ⟨rfl, h1, h2, h3, h4⟩

/-- Witness for C5: on the unit test mapping with two builds of
builder-a, the retained builder-a entry dominates the superseded one
(build 100 is below build 200). -/
theorem filter_latest_correct_witness :
    ((⟨"builder-a", BuildId.num 100⟩ : Build),
      (⟨"COMPLETED", some "FAILURE"⟩ : TryJobStatus)) =
      ((⟨"builder-a", BuildId.num 200⟩ : Build),
        (⟨"COMPLETED", some "SUCCESS"⟩ : TryJobStatus)) ∨
    ((⟨"builder-a", BuildId.num 100⟩ : Build) :
        Build).build_id.lt (⟨"builder-a", BuildId.num 200⟩ : Build).build_id = true :=
  (filter_latest_correct.2.2
      [((⟨"builder-a", BuildId.num 100⟩ : Build),
        (⟨"COMPLETED", some "FAILURE"⟩ : TryJobStatus)),
       ((⟨"builder-a", BuildId.num 200⟩ : Build),
        (⟨"COMPLETED", some "SUCCESS"⟩ : TryJobStatus)),
       ((⟨"builder-b", BuildId.num 50⟩ : Build),
        (⟨"SCHEDULED", none⟩ : TryJobStatus))]
      (by decide)).2.2.2.1
    ((⟨"builder-a", BuildId.num 200⟩ : Build),
      (⟨"COMPLETED", some "SUCCESS"⟩ : TryJobStatus))
    (by decide)
    ((⟨"builder-a", BuildId.num 100⟩ : Build),
      (⟨"COMPLETED", some "FAILURE"⟩ : TryJobStatus))
    (by decide) (by decide)

/-- Claim C6: with an auth-token path configured, `run` for the `issue`
subcommand builds exactly `git cl issue` without the auth flag, while any
`try` invocation always appends `--auth-refresh-token-json` and the token
path at the end; in both cases the vector starts with the fixed
subcommand name `git cl` followed by the caller args. -/
theorem run_auth_flag_policy (p : String) (rest : List String) :
    run_args (some p) ["issue"] = ["git", "cl", "issue"] ∧
    run_args (some p) ("try" :: rest) =
      ["git", "cl", "try"] ++ rest ++ ["--auth-refresh-token-json", p] ∧
    ∀ (auth : Option String) (args : List String),
      (["git", "cl"] ++ args) <+: run_args auth args := by
  refine ⟨by simp [run_args, auth_excluded_commands], ?_, ?_⟩
  · simp [run_args, auth_excluded_commands]
  · intro auth args
    match auth with
    | none => exact ⟨[], by simp [run_args]⟩
    | some token =>
        by_cases h : (args.headD "") ∈ auth_excluded_commands
        · refine ⟨[], ?_⟩
          simp only [run_args]
          rw [if_pos h]
          simp
        · refine ⟨["--auth-refresh-token-json", token], ?_⟩
          simp only [run_args]
          rw [if_neg h]

/-- Claim C7: `all_success` is true exactly when every entry of the
mapping has status COMPLETED and result SUCCESS; it is vacuously true on
the empty mapping, and any entry that is not (COMPLETED, SUCCESS) forces
it to false. -/
theorem all_success_characterization :
    (∀ m : TryResults, all_success m = true ↔
      ∀ e ∈ m, e.2.status = "COMPLETED" ∧ e.2.result = some "SUCCESS") ∧
    all_success ([] : TryResults) = true ∧
    (∀ (m : TryResults) (e : Build × TryJobStatus), e ∈ m →
      ¬(e.2.status = "COMPLETED" ∧ e.2.result = some "SUCCESS") →
      all_success m = false) := by
  have hiff : ∀ m : TryResults, all_success m = true ↔
      ∀ e ∈ m, e.2.status = "COMPLETED" ∧ e.2.result = some "SUCCESS" := by
    intro m
    simp [all_success, List.all_eq_true]
  refine ⟨hiff, rfl, ?_⟩
  intro m e hm hne
  cases h : all_success m with
  | false => rfl
  | true => exact absurd ((hiff m).mp h e hm) hne

/-- Witness for C7: a mapping with a STARTED entry is not all-success. -/
theorem all_success_characterization_witness :
    all_success [((⟨"some-builder", .num 2⟩ : Build),
                  (⟨"STARTED", none⟩ : TryJobStatus))] = false :=
  all_success_characterization.2.2
    [((⟨"some-builder", .num 2⟩ : Build), (⟨"STARTED", none⟩ : TryJobStatus))]
    ((⟨"some-builder", .num 2⟩ : Build), (⟨"STARTED", none⟩ : TryJobStatus))
    (by simp) (by decide)

/-- Claim C9: `get_issue_number` extracts the token of a line matching
`Issue number: <token> (...)` — including the literal token "None" — and
fails with `ParseError` when no line of the output matches the pattern. -/
theorem get_issue_number_spec :
    get_issue_number "Issue number: 12345 (http://crrev.com/12345)" = .ok "12345" ∧
    get_issue_number "Issue number: None (None)" = .ok "None" ∧
    ∀ output : String,
      (∀ l ∈ splitChar '\n' output.data, parseIssueLine l = none) →
      get_issue_number output = .error .parseError := by
  refine ⟨by decide, by decide, ?_⟩
  intro output h
  unfold get_issue_number
  rw [List.findSome?_eq_none_iff.mpr h]

/-- Witness for C9: an output with no issue-number line yields
`ParseError`. -/
theorem get_issue_number_spec_witness :
    get_issue_number "mock-output" = .error .parseError :=
  get_issue_number_spec.2.2 "mock-output" (by decide)

/-- Claim C3: for a collection holding one builder on a non-default
master (`android_blink_rel` on `tryserver.chromium.android`) and one
unrecognized builder (owned by the default master `tryserver.blink`),
`trigger_try_jobs` issues exactly two `try` invocations — the non-default
master's first — each naming its master via `-m` and only its own
builders via `-b`; the outcome is the same for every iteration order of
the collection (list or frozenset). -/
theorem trigger_try_jobs_two_masters (p b : String) (l : List String)
    (hb : b ≠ "android_blink_rel")
    (hperm : l.Perm ["android_blink_rel", b]) :
    trigger_try_jobs (some p) l =
      [["git", "cl", "try", "-m", "tryserver.chromium.android", "-b", "android_blink_rel",
        "--auth-refresh-token-json", p],
       ["git", "cl", "try", "-m", "tryserver.blink", "-b", b,
        "--auth-refresh-token-json", p]] := by
  haveI iT : IsTotal String strLe := ⟨strLe_total⟩
  haveI iTr : IsTrans String strLe := ⟨strLe_trans⟩
  haveI iA : IsAntisymm String strLe := ⟨strLe_antisymm⟩
  have hsort : l.insertionSort strLe =
      (["android_blink_rel", b] : List String).insertionSort strLe :=
    List.eq_of_perm_of_sorted
      ((List.perm_insertionSort strLe l).trans
        (hperm.trans (List.perm_insertionSort strLe _).symm))
      (List.sorted_insertionSort strLe l)
      (List.sorted_insertionSort strLe _)
  have hmb : master_for_builder b = "tryserver.blink" :=
    master_for_builder_default b hb
  have hma : master_for_builder "android_blink_rel" = "tryserver.chromium.android" := rfl
  unfold trigger_try_jobs
  rw [hsort]
  by_cases hle : strLe "android_blink_rel" b
  · have hss : (["android_blink_rel", b] : List String).insertionSort strLe =
        ["android_blink_rel", b] := by
      simp [List.insertionSort, List.orderedInsert, hle]
    rw [hss]
    simp [dedupFirst, hmb, hma, default_master, run_args, auth_excluded_commands]
  · have hss : (["android_blink_rel", b] : List String).insertionSort strLe =
        [b, "android_blink_rel"] := by
      simp [List.insertionSort, List.orderedInsert, hle]
    rw [hss]
    simp [dedupFirst, hmb, hma, default_master, run_args, auth_excluded_commands]

/-- Witness for C3: the unit test input list, reversed relative to sorted
order, with the test auth token. -/
theorem trigger_try_jobs_two_masters_witness :
    trigger_try_jobs (some "token.json") ["builder-a", "android_blink_rel"] =
      [["git", "cl", "try", "-m", "tryserver.chromium.android", "-b", "android_blink_rel",
        "--auth-refresh-token-json", "token.json"],
       ["git", "cl", "try", "-m", "tryserver.blink", "-b", "builder-a",
        "--auth-refresh-token-json", "token.json"]] :=
  trigger_try_jobs_two_masters "token.json" "builder-a"
    ["builder-a", "android_blink_rel"] (by decide)
    (List.Perm.swap "android_blink_rel" "builder-a" [])

/-- Claim C4: `try_job_results` derives each build id from the record's
url: a url whose final segment is a run of digits (such as
`.../builds/100`) yields the integer; a `.../task/<hex-token>` url yields
the token string with any trailing query stripped; a falsy url yields no
id; a non-empty url matching neither pattern raises the assertion-style
`MalformedResultError` — unless a builder-name filter excludes that
record's builder, in which case the record is silently dropped, leaving
the empty mapping when nothing remains. -/
theorem try_job_results_build_id_patterns :
    build_id_of_url (some ".../builds/100") = .ok (.num 100) ∧
    build_id_of_url (some ".../task/abcd1234?server=x") = .ok (.task "abcd1234") ∧
    build_id_of_url none = .ok .noneId ∧
    build_id_of_url (some "https://example.com/") =
      .error (.malformedResult "https://example.com/ did not match expected format") ∧
    (∀ (pre ds : List Char), ds ≠ [] → (∀ c ∈ ds, c.isDigit = true) →
      parse_build_number (pre ++ '/' :: ds) = some (digitsVal ds)) ∧
    (∀ (tok q : List Char), tok ≠ [] → (∀ c ∈ tok, isHexDigit c = true) →
      parse_task_id (['/', 't', 'a', 's', 'k', '/'] ++ (tok ++ '?' :: q)) = some tok) ∧
    try_job_results none
        [⟨"builder-a", "COMPLETED", some "FAILURE", some "https://example.com/"⟩] =
      .error (.malformedResult "https://example.com/ did not match expected format") ∧
    try_job_results (some ["other-builder"])
        [⟨"builder-a", "COMPLETED", some "FAILURE", some "https://example.com/"⟩] = .ok [] :=
  ⟨by decide, by decide, by decide, by decide, parse_build_number_digits,
   parse_task_id_token, by decide, by decide⟩

/-- Claim C1 (amended): with poll interval 600 and timeout 7200, a
raw-results source that always returns one STARTED (non-terminal) record
with a parseable url, under a review status that never reads "closed",
makes `wait_for_try_jobs` run its polling loop exactly 6 times — each pass
sleeping two poll intervals, consuming the full budget of 12 intervals —
printing the announcement line, the cumulative elapsed lines for 600,
1800, 3000, 4200, 5400 and 6600 seconds, then the timed-out line, and
returning the null sentinel rather than a `CLStatus`. -/
theorem wait_for_try_jobs_timeout_runs_six (env : PollEnv) (b : String)
    (orslt : Option String) (u : Option String) (bid : BuildId)
    (hraw : ∀ i, env.rawResults i = [⟨b, "STARTED", orslt, u⟩])
    (hurl : build_id_of_url u = .ok bid)
    (hclosed : ∀ i, env.clStatus i ≠ "closed") :
    wait_for_try_jobs env 600 7200 =
      .ok ⟨none,
        ["Waiting for try jobs, timeout: 7200 seconds.",
         "Waiting for try jobs. 600 seconds passed.",
         "Waiting for try jobs. 1800 seconds passed.",
         "Waiting for try jobs. 3000 seconds passed.",
         "Waiting for try jobs. 4200 seconds passed.",
         "Waiting for try jobs. 5400 seconds passed.",
         "Waiting for try jobs. 6600 seconds passed.",
         "Timed out waiting for try jobs."], 6⟩ := by
  have hlat : ∀ i, latest_try_jobs none (env.rawResults i) =
      .ok [((⟨b, bid⟩ : Build), (⟨"STARTED", orslt⟩ : TryJobStatus))] := by
    intro i
    rw [hraw i]
    simp [latest_try_jobs, try_job_results, hurl, filter_latest_core, updateLatest]
  have hnf : ((!([((⟨b, bid⟩ : Build), (⟨"STARTED", orslt⟩ : TryJobStatus))] :
      TryResults).isEmpty) &&
      all_finished [((⟨b, bid⟩ : Build), (⟨"STARTED", orslt⟩ : TryJobStatus))]) = false := by
    simp [all_finished]
  calc wait_for_try_jobs env 600 7200
      = waitLoop env 600 7200 7200 1200 1
          ["Waiting for try jobs, timeout: 7200 seconds.",
           "Waiting for try jobs. 600 seconds passed."] 1 :=
        waitLoop_nonterminal_step env 600 7200 7200 0 0
          ["Waiting for try jobs, timeout: 7200 seconds."] 0 _
          (by omega) (hlat 0) (hclosed 0) hnf
    _ = waitLoop env 600 7200 7199 2400 2
          ["Waiting for try jobs, timeout: 7200 seconds.",
           "Waiting for try jobs. 600 seconds passed.",
           "Waiting for try jobs. 1800 seconds passed."] 2 :=
        waitLoop_nonterminal_step env 600 7200 7199 1200 1 _ 1 _
          (by omega) (hlat 1) (hclosed 1) hnf
    _ = waitLoop env 600 7200 7198 3600 3
          ["Waiting for try jobs, timeout: 7200 seconds.",
           "Waiting for try jobs. 600 seconds passed.",
           "Waiting for try jobs. 1800 seconds passed.",
           "Waiting for try jobs. 3000 seconds passed."] 3 :=
        waitLoop_nonterminal_step env 600 7200 7198 2400 2 _ 2 _
          (by omega) (hlat 2) (hclosed 2) hnf
    _ = waitLoop env 600 7200 7197 4800 4
          ["Waiting for try jobs, timeout: 7200 seconds.",
           "Waiting for try jobs. 600 seconds passed.",
           "Waiting for try jobs. 1800 seconds passed.",
           "Waiting for try jobs. 3000 seconds passed.",
           "Waiting for try jobs. 4200 seconds passed."] 4 :=
        waitLoop_nonterminal_step env 600 7200 7197 3600 3 _ 3 _
          (by omega) (hlat 3) (hclosed 3) hnf
    _ = waitLoop env 600 7200 7196 6000 5
          ["Waiting for try jobs, timeout: 7200 seconds.",
           "Waiting for try jobs. 600 seconds passed.",
           "Waiting for try jobs. 1800 seconds passed.",
           "Waiting for try jobs. 3000 seconds passed.",
           "Waiting for try jobs. 4200 seconds passed.",
           "Waiting for try jobs. 5400 seconds passed."] 5 :=
        waitLoop_nonterminal_step env 600 7200 7196 4800 4 _ 4 _
          (by omega) (hlat 4) (hclosed 4) hnf
    _ = waitLoop env 600 7200 7195 7200 6
          ["Waiting for try jobs, timeout: 7200 seconds.",
           "Waiting for try jobs. 600 seconds passed.",
           "Waiting for try jobs. 1800 seconds passed.",
           "Waiting for try jobs. 3000 seconds passed.",
           "Waiting for try jobs. 4200 seconds passed.",
           "Waiting for try jobs. 5400 seconds passed.",
           "Waiting for try jobs. 6600 seconds passed."] 6 :=
        waitLoop_nonterminal_step env 600 7200 7195 6000 5 _ 5 _
          (by omega) (hlat 5) (hclosed 5) hnf
    _ = .ok ⟨none,
          ["Waiting for try jobs, timeout: 7200 seconds.",
           "Waiting for try jobs. 600 seconds passed.",
           "Waiting for try jobs. 1800 seconds passed.",
           "Waiting for try jobs. 3000 seconds passed.",
           "Waiting for try jobs. 4200 seconds passed.",
           "Waiting for try jobs. 5400 seconds passed.",
           "Waiting for try jobs. 6600 seconds passed.",
           "Timed out waiting for try jobs."], 6⟩ :=
        waitLoop_exit_timeout env 600 7200 7195 7200 6 _ 6 (by omega)

/-- Witness for C1 (amended): the unit test source, one STARTED record
with no url and a review status that never reads closed. -/
theorem wait_for_try_jobs_timeout_runs_six_witness :
    wait_for_try_jobs
        ⟨fun _ => [⟨"some-builder", "STARTED", none, none⟩], fun _ => ""⟩ 600 7200 =
      .ok ⟨none,
        ["Waiting for try jobs, timeout: 7200 seconds.",
         "Waiting for try jobs. 600 seconds passed.",
         "Waiting for try jobs. 1800 seconds passed.",
         "Waiting for try jobs. 3000 seconds passed.",
         "Waiting for try jobs. 4200 seconds passed.",
         "Waiting for try jobs. 5400 seconds passed.",
         "Waiting for try jobs. 6600 seconds passed.",
         "Timed out waiting for try jobs."], 6⟩ :=
  wait_for_try_jobs_timeout_runs_six
    ⟨fun _ => [⟨"some-builder", "STARTED", none, none⟩], fun _ => ""⟩
    "some-builder" none none .noneId (fun _ => rfl) rfl
    (fun _ => (by decide : ("" : String) ≠ "closed"))

/-- Counterexample for C1 as stated: on the unit test source the loop body
runs 6 times, not 12; the outcome with iteration count 6 differs from the
claimed one with iteration count 12. -/
theorem wait_for_try_jobs_not_twelve_iterations :
    wait_for_try_jobs
        ⟨fun _ => [⟨"some-builder", "STARTED", none, none⟩], fun _ => ""⟩ 600 7200 =
      .ok ⟨none,
        ["Waiting for try jobs, timeout: 7200 seconds.",
         "Waiting for try jobs. 600 seconds passed.",
         "Waiting for try jobs. 1800 seconds passed.",
         "Waiting for try jobs. 3000 seconds passed.",
         "Waiting for try jobs. 4200 seconds passed.",
         "Waiting for try jobs. 5400 seconds passed.",
         "Waiting for try jobs. 6600 seconds passed.",
         "Timed out waiting for try jobs."], 6⟩ ∧
    (.ok (⟨none,
        ["Waiting for try jobs, timeout: 7200 seconds.",
         "Waiting for try jobs. 600 seconds passed.",
         "Waiting for try jobs. 1800 seconds passed.",
         "Waiting for try jobs. 3000 seconds passed.",
         "Waiting for try jobs. 4200 seconds passed.",
         "Waiting for try jobs. 5400 seconds passed.",
         "Waiting for try jobs. 6600 seconds passed.",
         "Timed out waiting for try jobs."], 6⟩ : WaitOutcome CLStatus) :
        Except GitClError (WaitOutcome CLStatus)) ≠
      .ok ⟨none,
        ["Waiting for try jobs, timeout: 7200 seconds.",
         "Waiting for try jobs. 600 seconds passed.",
         "Waiting for try jobs. 1800 seconds passed.",
         "Waiting for try jobs. 3000 seconds passed.",
         "Waiting for try jobs. 4200 seconds passed.",
         "Waiting for try jobs. 5400 seconds passed.",
         "Waiting for try jobs. 6600 seconds passed.",
         "Timed out waiting for try jobs."], 12⟩ :=
  ⟨by decide, by decide⟩

/-- Claim C2: the try-job polling loop exits after its very first poll —
well before the iteration budget — when the review status reads the
terminal "closed" value or when the parsed results are nonempty and all
COMPLETED; it then returns the `CLStatus` combining the current review
status with the latest parsed mapping, having printed only the initial
timeout-announcement line. -/
theorem wait_for_try_jobs_early_exit (env : PollEnv) (res : TryResults)
    (hres : try_job_results none (env.rawResults 0) = .ok res)
    (hterm : env.clStatus 0 = "closed" ∨
      (filter_latest_core res ≠ [] ∧ all_finished (filter_latest_core res) = true)) :
    wait_for_try_jobs env 600 7200 =
      .ok ⟨some ⟨env.clStatus 0, filter_latest_core res⟩,
           ["Waiting for try jobs, timeout: 7200 seconds."], 1⟩ := by
  have hlat : latest_try_jobs none (env.rawResults 0) =
      .ok (filter_latest_core res) := by
    simp [latest_try_jobs, hres]
  have hterm2 : env.clStatus 0 = "closed" ∨
      ((!(filter_latest_core res).isEmpty) &&
        all_finished (filter_latest_core res)) = true := by
    rcases hterm with h | ⟨h1, h2⟩
    · exact Or.inl h
    · exact Or.inr (by simp [h2, h1])
  exact waitLoop_exit_terminal env 600 7200 7200 0 0
    ["Waiting for try jobs, timeout: 7200 seconds."] 0
    (filter_latest_core res) (by omega) hlat hterm2

/-- Witness for C2: the unit test scenario where the review status reads
closed at the first poll. -/
theorem wait_for_try_jobs_early_exit_witness :
    wait_for_try_jobs
        ⟨fun _ => [⟨"some-builder", "STARTED", none, none⟩], fun _ => "closed"⟩ 600 7200 =
      .ok ⟨some ⟨"closed", [((⟨"some-builder", .noneId⟩ : Build),
                            (⟨"STARTED", none⟩ : TryJobStatus))]⟩,
           ["Waiting for try jobs, timeout: 7200 seconds."], 1⟩ :=
  wait_for_try_jobs_early_exit
    ⟨fun _ => [⟨"some-builder", "STARTED", none, none⟩], fun _ => "closed"⟩
    [((⟨"some-builder", .noneId⟩ : Build), (⟨"STARTED", none⟩ : TryJobStatus))]
    (by decide) (Or.inl rfl)

/-- Claim C10: a raw-results source that always returns no records, under
a review status that never reads closed, never triggers the early exit:
`wait_for_try_jobs` runs the full timeout sequence, prints every elapsed
line and the timed-out line, and returns the null sentinel — even though
`all_success` of the empty mapping is vacuously true. -/
theorem wait_no_results_not_finished (env : PollEnv)
    (hraw : ∀ i, env.rawResults i = [])
    (hclosed : ∀ i, env.clStatus i ≠ "closed") :
    (wait_for_try_jobs env 600 7200 =
      .ok ⟨none,
        ["Waiting for try jobs, timeout: 7200 seconds.",
         "Waiting for try jobs. 600 seconds passed.",
         "Waiting for try jobs. 1800 seconds passed.",
         "Waiting for try jobs. 3000 seconds passed.",
         "Waiting for try jobs. 4200 seconds passed.",
         "Waiting for try jobs. 5400 seconds passed.",
         "Waiting for try jobs. 6600 seconds passed.",
         "Timed out waiting for try jobs."], 6⟩) ∧
    all_success [] = true := by
  have hlat : ∀ i, latest_try_jobs none (env.rawResults i) = .ok [] := by
    intro i
    rw [hraw i]
    simp [latest_try_jobs, try_job_results, filter_latest_core]
  have hnf : ((!([] : TryResults).isEmpty) && all_finished []) = false := rfl
  refine ⟨?_, rfl⟩
  calc wait_for_try_jobs env 600 7200
      = waitLoop env 600 7200 7200 1200 1
          ["Waiting for try jobs, timeout: 7200 seconds.",
           "Waiting for try jobs. 600 seconds passed."] 1 :=
        waitLoop_nonterminal_step env 600 7200 7200 0 0 _ 0 _
          (by omega) (hlat 0) (hclosed 0) hnf
    _ = waitLoop env 600 7200 7199 2400 2
          ["Waiting for try jobs, timeout: 7200 seconds.",
           "Waiting for try jobs. 600 seconds passed.",
           "Waiting for try jobs. 1800 seconds passed."] 2 :=
        waitLoop_nonterminal_step env 600 7200 7199 1200 1 _ 1 _
          (by omega) (hlat 1) (hclosed 1) hnf
    _ = waitLoop env 600 7200 7198 3600 3
          ["Waiting for try jobs, timeout: 7200 seconds.",
           "Waiting for try jobs. 600 seconds passed.",
           "Waiting for try jobs. 1800 seconds passed.",
           "Waiting for try jobs. 3000 seconds passed."] 3 :=
        waitLoop_nonterminal_step env 600 7200 7198 2400 2 _ 2 _
          (by omega) (hlat 2) (hclosed 2) hnf
    _ = waitLoop env 600 7200 7197 4800 4
          ["Waiting for try jobs, timeout: 7200 seconds.",
           "Waiting for try jobs. 600 seconds passed.",
           "Waiting for try jobs. 1800 seconds passed.",
           "Waiting for try jobs. 3000 seconds passed.",
           "Waiting for try jobs. 4200 seconds passed."] 4 :=
        waitLoop_nonterminal_step env 600 7200 7197 3600 3 _ 3 _
          (by omega) (hlat 3) (hclosed 3) hnf
    _ = waitLoop env 600 7200 7196 6000 5
          ["Waiting for try jobs, timeout: 7200 seconds.",
           "Waiting for try jobs. 600 seconds passed.",
           "Waiting for try jobs. 1800 seconds passed.",
           "Waiting for try jobs. 3000 seconds passed.",
           "Waiting for try jobs. 4200 seconds passed.",
           "Waiting for try jobs. 5400 seconds passed."] 5 :=
        waitLoop_nonterminal_step env 600 7200 7196 4800 4 _ 4 _
          (by omega) (hlat 4) (hclosed 4) hnf
    _ = waitLoop env 600 7200 7195 7200 6
          ["Waiting for try jobs, timeout: 7200 seconds.",
           "Waiting for try jobs. 600 seconds passed.",
           "Waiting for try jobs. 1800 seconds passed.",
           "Waiting for try jobs. 3000 seconds passed.",
           "Waiting for try jobs. 4200 seconds passed.",
           "Waiting for try jobs. 5400 seconds passed.",
           "Waiting for try jobs. 6600 seconds passed."] 6 :=
        waitLoop_nonterminal_step env 600 7200 7195 6000 5 _ 5 _
          (by omega) (hlat 5) (hclosed 5) hnf
    _ = .ok ⟨none,
          ["Waiting for try jobs, timeout: 7200 seconds.",
           "Waiting for try jobs. 600 seconds passed.",
           "Waiting for try jobs. 1800 seconds passed.",
           "Waiting for try jobs. 3000 seconds passed.",
           "Waiting for try jobs. 4200 seconds passed.",
           "Waiting for try jobs. 5400 seconds passed.",
           "Waiting for try jobs. 6600 seconds passed.",
           "Timed out waiting for try jobs."], 6⟩ :=
        waitLoop_exit_timeout env 600 7200 7195 7200 6 _ 6 (by omega)

/-- Witness for C10: the unit test source returning the empty record list
under a never-closed review status. -/
theorem wait_no_results_not_finished_witness :
    (wait_for_try_jobs ⟨fun _ => [], fun _ => ""⟩ 600 7200 =
      .ok ⟨none,
        ["Waiting for try jobs, timeout: 7200 seconds.",
         "Waiting for try jobs. 600 seconds passed.",
         "Waiting for try jobs. 1800 seconds passed.",
         "Waiting for try jobs. 3000 seconds passed.",
         "Waiting for try jobs. 4200 seconds passed.",
         "Waiting for try jobs. 5400 seconds passed.",
         "Waiting for try jobs. 6600 seconds passed.",
         "Timed out waiting for try jobs."], 6⟩) ∧
    all_success [] = true :=
  wait_no_results_not_finished ⟨fun _ => [], fun _ => ""⟩
    (fun _ => rfl) (fun _ => (by decide : ("" : String) ≠ "closed"))

/-- Claim C8: `wait_for_closed_status` with poll interval 120 and timeout
1800 returns the status string after printing "CL is closed." when the
review status reads the recognized closed state, and prints the elapsed
lines followed by the timed-out line and returns the null sentinel when
the status never becomes closed. -/
theorem wait_for_closed_status_spec (env : PollEnv) :
    (env.clStatus 0 = "closed" →
      wait_for_closed_status env 120 1800 =
        ⟨some "closed",
         ["Waiting for closed status, timeout: 1800 seconds.",
          "CL is closed."], 1⟩) ∧
    ((∀ i, env.clStatus i ≠ "closed") →
      wait_for_closed_status env 120 1800 =
        ⟨none,
         ["Waiting for closed status, timeout: 1800 seconds.",
          "Waiting for closed status. 120 seconds passed.",
          "Waiting for closed status. 360 seconds passed.",
          "Waiting for closed status. 600 seconds passed.",
          "Waiting for closed status. 840 seconds passed.",
          "Waiting for closed status. 1080 seconds passed.",
          "Waiting for closed status. 1320 seconds passed.",
          "Waiting for closed status. 1560 seconds passed.",
          "Waiting for closed status. 1800 seconds passed.",
          "Timed out waiting for closed status."], 8⟩) := by
  constructor
  · intro h
    calc wait_for_closed_status env 120 1800
        = ⟨some (env.clStatus 0),
           ["Waiting for closed status, timeout: 1800 seconds.",
            "CL is closed."], 1⟩ :=
          closedLoop_exit_closed env 120 1800 1800 0 0 _ 0 (by omega) h
      _ = ⟨some "closed",
           ["Waiting for closed status, timeout: 1800 seconds.",
            "CL is closed."], 1⟩ := by rw [h]
  · intro h
    calc wait_for_closed_status env 120 1800
        = closedLoop env 120 1800 1800 240 1
            ["Waiting for closed status, timeout: 1800 seconds.",
             "Waiting for closed status. 120 seconds passed."] 1 :=
          closedLoop_step env 120 1800 1800 0 0 _ 0 (by omega) (h 0)
      _ = closedLoop env 120 1800 1799 480 2
            ["Waiting for closed status, timeout: 1800 seconds.",
             "Waiting for closed status. 120 seconds passed.",
             "Waiting for closed status. 360 seconds passed."] 2 :=
          closedLoop_step env 120 1800 1799 240 1 _ 1 (by omega) (h 1)
      _ = closedLoop env 120 1800 1798 720 3
            ["Waiting for closed status, timeout: 1800 seconds.",
             "Waiting for closed status. 120 seconds passed.",
             "Waiting for closed status. 360 seconds passed.",
             "Waiting for closed status. 600 seconds passed."] 3 :=
          closedLoop_step env 120 1800 1798 480 2 _ 2 (by omega) (h 2)
      _ = closedLoop env 120 1800 1797 960 4
            ["Waiting for closed status, timeout: 1800 seconds.",
             "Waiting for closed status. 120 seconds passed.",
             "Waiting for closed status. 360 seconds passed.",
             "Waiting for closed status. 600 seconds passed.",
             "Waiting for closed status. 840 seconds passed."] 4 :=
          closedLoop_step env 120 1800 1797 720 3 _ 3 (by omega) (h 3)
      _ = closedLoop env 120 1800 1796 1200 5
            ["Waiting for closed status, timeout: 1800 seconds.",
             "Waiting for closed status. 120 seconds passed.",
             "Waiting for closed status. 360 seconds passed.",
             "Waiting for closed status. 600 seconds passed.",
             "Waiting for closed status. 840 seconds passed.",
             "Waiting for closed status. 1080 seconds passed."] 5 :=
          closedLoop_step env 120 1800 1796 960 4 _ 4 (by omega) (h 4)
      _ = closedLoop env 120 1800 1795 1440 6
            ["Waiting for closed status, timeout: 1800 seconds.",
             "Waiting for closed status. 120 seconds passed.",
             "Waiting for closed status. 360 seconds passed.",
             "Waiting for closed status. 600 seconds passed.",
             "Waiting for closed status. 840 seconds passed.",
             "Waiting for closed status. 1080 seconds passed.",
             "Waiting for closed status. 1320 seconds passed."] 6 :=
          closedLoop_step env 120 1800 1795 1200 5 _ 5 (by omega) (h 5)
      _ = closedLoop env 120 1800 1794 1680 7
            ["Waiting for closed status, timeout: 1800 seconds.",
             "Waiting for closed status. 120 seconds passed.",
             "Waiting for closed status. 360 seconds passed.",
             "Waiting for closed status. 600 seconds passed.",
             "Waiting for closed status. 840 seconds passed.",
             "Waiting for closed status. 1080 seconds passed.",
             "Waiting for closed status. 1320 seconds passed.",
             "Waiting for closed status. 1560 seconds passed."] 7 :=
          closedLoop_step env 120 1800 1794 1440 6 _ 6 (by omega) (h 6)
      _ = closedLoop env 120 1800 1793 1920 8
            ["Waiting for closed status, timeout: 1800 seconds.",
             "Waiting for closed status. 120 seconds passed.",
             "Waiting for closed status. 360 seconds passed.",
             "Waiting for closed status. 600 seconds passed.",
             "Waiting for closed status. 840 seconds passed.",
             "Waiting for closed status. 1080 seconds passed.",
             "Waiting for closed status. 1320 seconds passed.",
             "Waiting for closed status. 1560 seconds passed.",
             "Waiting for closed status. 1800 seconds passed."] 8 :=
          closedLoop_step env 120 1800 1793 1680 7 _ 7 (by omega) (h 7)
      _ = ⟨none,
           ["Waiting for closed status, timeout: 1800 seconds.",
            "Waiting for closed status. 120 seconds passed.",
            "Waiting for closed status. 360 seconds passed.",
            "Waiting for closed status. 600 seconds passed.",
            "Waiting for closed status. 840 seconds passed.",
            "Waiting for closed status. 1080 seconds passed.",
            "Waiting for closed status. 1320 seconds passed.",
            "Waiting for closed status. 1560 seconds passed.",
            "Waiting for closed status. 1800 seconds passed.",
            "Timed out waiting for closed status."], 8⟩ :=
          closedLoop_exit_timeout env 120 1800 1793 1920 8 _ 8 (by omega)

/-- Witness for C8: the two unit test scenarios, review status constantly
closed and review status constantly "commit". -/
theorem wait_for_closed_status_spec_witness :
    (wait_for_closed_status ⟨fun _ => [], fun _ => "closed"⟩ 120 1800 =
      ⟨some "closed",
       ["Waiting for closed status, timeout: 1800 seconds.",
        "CL is closed."], 1⟩) ∧
    (wait_for_closed_status ⟨fun _ => [], fun _ => "commit"⟩ 120 1800 =
      ⟨none,
       ["Waiting for closed status, timeout: 1800 seconds.",
        "Waiting for closed status. 120 seconds passed.",
        "Waiting for closed status. 360 seconds passed.",
        "Waiting for closed status. 600 seconds passed.",
        "Waiting for closed status. 840 seconds passed.",
        "Waiting for closed status. 1080 seconds passed.",
        "Waiting for closed status. 1320 seconds passed.",
        "Waiting for closed status. 1560 seconds passed.",
        "Waiting for closed status. 1800 seconds passed.",
        "Timed out waiting for closed status."], 8⟩) :=
  ⟨(wait_for_closed_status_spec ⟨fun _ => [], fun _ => "closed"⟩).1 rfl,
   (wait_for_closed_status_spec ⟨fun _ => [], fun _ => "commit"⟩).2
     (fun _ => (by decide : ("commit" : String) ≠ "closed"))⟩

/-- Witness for C4: the two general url-pattern components evaluated at
concrete digit and hex-token inputs. -/
theorem try_job_results_build_id_patterns_witness :
    parse_build_number (".../builds".data ++ '/' :: ['1', '0', '0']) = some 100 ∧
    parse_task_id (['/', 't', 'a', 's', 'k', '/'] ++
      (['a', 'b', 'c', 'd'] ++ '?' :: ['x'])) = some ['a', 'b', 'c', 'd'] :=
  ⟨try_job_results_build_id_patterns.2.2.2.2.1 (".../builds").data ['1', '0', '0']
      (by decide) (by decide),
   try_job_results_build_id_patterns.2.2.2.2.2.1 ['a', 'b', 'c', 'd'] ['x']
      (by decide) (by decide)⟩

end GitCL
